import Mathlib

/-!
Verification development for the basil-disease-detection backend
(`backend/app/prediction.py` and `backend/app/disease_info.py`).

The Python code is shallowly embedded: pure computation the repository
performs itself (feature ordering, channel indexing, histogram
normalisation, registry fallback logic, the two-stage prediction control
flow with its exception handlers) is translated into executable Lean
definitions, while calls into external libraries (cv2 resizing and colour
conversion, skimage GLCM / entropy / LBP, contour detection, Canny edges,
joblib artifacts, the wall clock) enter as explicit parameters.
Machine `uint8` pixel values are `Fin 256`; real-valued features are `ℚ`;
Python exceptions are `Except String`; a Python value that may be `None`
is an `Option`.
-/

namespace Basil

/-! ### disease_info.py -/

structure DiseaseInfo where
  name : String
  description : String
  compounds_affected : String
  properties_lost : String
  properties_retained : String
  usability : String
  medicinal_uses : List String
  color : String
  severity : String
deriving DecidableEq

/-- The `DISEASE_INFO` table of `disease_info.py`, in source order. -/
def DISEASE_INFO : List (String × DiseaseInfo) :=
  [("healthy_basil",
    { name := "Healthy Basil"
      description := "No symptoms of infection or damage. All key bioactives are retained in full capacity."
      compounds_affected := "None"
      properties_lost := "None"
      properties_retained := "All retained"
      usability := "Yes – Fully usable for all purposes"
      medicinal_uses := ["Herbal teas", "Ayurveda and Unani medicine",
        "Culinary use", "Cosmetic and essential oil extraction"]
      color := "#4CAF50"
      severity := "none" }),
   ("downy_mildew",
    { name := "Downy Mildew"
      description := "Causes interveinal chlorosis, leading to yellowing of tissue and fungal spore development."
      compounds_affected := "Flavonoids, carotenoids"
      properties_lost := "Antioxidant, anti-inflammatory"
      properties_retained := "Aroma compounds (mild stages)"
      usability := "Yes, for topical use / aroma (early only)"
      medicinal_uses := ["Mild aroma-based preparations",
        "Herbal infusions (non-ingestible)", "Air purifiers"]
      color := "#FF9800"
      severity := "moderate" }),
   ("fusarium_wilt",
    { name := "Fusarium Wilt"
      description := "Fungal invasion through roots blocks xylem vessels, disrupting nutrient flow."
      compounds_affected := "Eugenol, linalool, methyl chavicol"
      properties_lost := "Antibacterial, antifungal, digestive"
      properties_retained := "Almost none"
      usability := "No – Unfit for any medicinal use"
      medicinal_uses := ["Compost or biowaste (if completely dried and sterilized)"]
      color := "#F44336"
      severity := "severe" }),
   ("gray_mold",
    { name := "Gray Mold"
      description := "Leads to soft rot and fuzzy gray fungal growth on the surface."
      compounds_affected := "Polyphenols, phenolic acids, tannins"
      properties_lost := "Antioxidant, anti-aging, hepatoprotective"
      properties_retained := "Faint smell (early stage only)"
      usability := "Slight topical use only (early); discard later"
      medicinal_uses := ["Topical balms (very early stage)", "Incense (non-ingestion)"]
      color := "#9C27B0"
      severity := "severe" }),
   ("septoria_leaf_spot",
    { name := "Septoria Leaf Spot"
      description := "Develops brown to black necrotic spots surrounded by yellow halos."
      compounds_affected := "Chlorophyll, vitamin C, polyphenols"
      properties_lost := "Immunity, rejuvenation, detoxification"
      properties_retained := "Minor essential oils in unaffected areas"
      usability := "Limited non-oral use (early stage only)"
      medicinal_uses := ["Aromatherapy (localized spots only)",
        "Topical use (if <20% affected)"]
      color := "#795548"
      severity := "moderate" })]

/-- The healthy record, used as the default of `DISEASE_INFO.get`. -/
def healthyRecord : DiseaseInfo :=
  { name := "Healthy Basil"
    description := "No symptoms of infection or damage. All key bioactives are retained in full capacity."
    compounds_affected := "None"
    properties_lost := "None"
    properties_retained := "All retained"
    usability := "Yes – Fully usable for all purposes"
    medicinal_uses := ["Herbal teas", "Ayurveda and Unani medicine",
      "Culinary use", "Cosmetic and essential oil extraction"]
    color := "#4CAF50"
    severity := "none" }

/-- Embedding of `get_disease_info` in `disease_info.py`: lower-case the identifier, look it
up, and fall back to the healthy record. -/
def get_disease_info (disease_name : String) : DiseaseInfo :=
  (DISEASE_INFO.lookup disease_name.toLower).getD healthyRecord

/-! ### Images and feature extraction (`prediction.py` lines 84-182)

A raster image as handed around by the code: `px r c k` is the 8-bit value
of channel `k` at row `r`, column `c`.  `cv2.imread` produces BGR channel
layout, so channel 0 is blue, channel 1 green, channel 2 red; the code
relies on this layout itself when it calls `cv2.cvtColor` with
`COLOR_BGR2GRAY` / `COLOR_BGR2HSV`. -/

structure Image where
  px : ℕ → ℕ → Fin 3 → Fin 256

/-- Sum of one channel over an `h × w` raster. -/
def channelSum (img : Image) (h w : ℕ) (k : Fin 3) : ℕ :=
  ∑ r in Finset.range h, ∑ c in Finset.range w, (img.px r c k).val

/-- The mean `np.mean(image[:, :, k])` over an `h × w` raster. -/
def channelMean (img : Image) (h w : ℕ) (k : Fin 3) : ℚ :=
  (channelSum img h w k : ℚ) / (h * w)

/-- The five GLCM texture properties; `graycomatrix` / `graycoprops` are
external skimage computations, so they enter as a black-box record of
five rationals. -/
structure GlcmProps where
  contrast : ℚ
  dissimilarity : ℚ
  homogeneity : ℚ
  energy : ℚ
  correlation : ℚ
deriving DecidableEq

/-- Embedding of `BasilDiseasePredictor.extract_health_features`
(`prediction.py` lines 84-116).  The cv2 resize to 256×256, the GLCM
texture block, and the threshold/contour area are library calls; they
enter as the already-resized image `resized`, the record `g`, and the
maximal contour area `area`.  The repository code contributes the order of
the 9 features and the channel indices of the colour means: the slots the
code names `r_mean`, `g_mean`, `b_mean` read channels 0, 1, 2 of the BGR
image, i.e. the blue, green and red channels in that order. -/
def extract_health_features (resized : Image) (g : GlcmProps) (area : ℚ) : List ℚ :=
  [g.contrast, g.dissimilarity, g.homogeneity, g.energy, g.correlation,
   channelMean resized 256 256 0, channelMean resized 256 256 1,
   channelMean resized 256 256 2, area]

/-! Disease feature extraction (`prediction.py` lines 121-179).  The image
is resized to 640×640; HSV and grayscale copies are made by cv2.  The LBP
transform (uniform method, P = 24, R = 3) produces a code in `0..25` for
every pixel, which we model as a map into `Fin 26`. -/

/-- The pixel grid of the 640×640 resized image. -/
def pixelGrid : Finset (ℕ × ℕ) := Finset.range 640 ×ˢ Finset.range 640

/-- The `cv2.inRange(hsv, (20,100,100), (35,255,255))` pixel count divided by
`640*640` (`prediction.py` lines 144-148); bounds are inclusive. -/
def yellowAreaPercent (hsvImg : Image) : ℚ :=
  ((pixelGrid.filter (fun p =>
      20 ≤ (hsvImg.px p.1 p.2 0).val ∧ (hsvImg.px p.1 p.2 0).val ≤ 35 ∧
      100 ≤ (hsvImg.px p.1 p.2 1).val ∧ 100 ≤ (hsvImg.px p.1 p.2 2).val)).card : ℚ)
    / (640 * 640)

/-- Count of one LBP histogram bin: pixels of the 640×640 grayscale image
whose uniform-LBP code equals `i` (`np.histogram` with integer bin edges
`0..26`). -/
def histCount (lbp : ℕ → ℕ → Fin 26) (i : ℕ) : ℕ :=
  (pixelGrid.filter (fun p => (lbp p.1 p.2).val = i)).card

/-- The total `hist.sum()` over the 26 bins. -/
def histSum (lbp : ℕ → ℕ → Fin 26) : ℕ :=
  ∑ i in Finset.range 26, histCount lbp i

/-- One normalised LBP histogram entry: `hist[i] / (hist.sum() + 1e-6)`
(`prediction.py` line 158). -/
def lbpNorm (lbp : ℕ → ℕ → Fin 26) (i : ℕ) : ℚ :=
  (histCount lbp i : ℚ) / ((histSum lbp : ℚ) + 1 / 1000000)

/-- Fraction of Canny edge pixels over `640*640` (`prediction.py`
lines 169-171); the edge detector itself is a cv2 call entering as the
boolean mask `edges`. -/
def edgeDensity (edges : ℕ → ℕ → Bool) : ℚ :=
  ((pixelGrid.filter (fun p => edges p.1 p.2 = true)).card : ℚ) / (640 * 640)

/-- Wrap-around subtraction of two `uint8` values, the semantics of
`left - right` on numpy `uint8` arrays: `(a - b) mod 256`.  `np.abs` on an
unsigned array is the identity, so this is exactly what
`np.abs(left - right)` computes in `prediction.py` line 176. -/
def wrapSub (a b : Fin 256) : ℕ :=
  (a.val + 256 - b.val) % 256

/-- Mean of the wrapped differences between the left half of the 640×640
grayscale image and the horizontally mirrored right half
(`left = gray[:, :320]`, `right = cv2.flip(gray[:, 320:], 1)`, so
`right[r][c] = gray[r][639-c]`). -/
def symMean (gray : ℕ → ℕ → Fin 256) : ℚ :=
  (∑ r in Finset.range 640, ∑ c in Finset.range 320,
      (wrapSub (gray r c) (gray r (639 - c)) : ℚ)) / (640 * 320)

/-- The symmetry score exactly as the code computes it
(`prediction.py` lines 173-177), including the `uint8` wrap-around of
`left - right`. -/
def symmetry_score (gray : ℕ → ℕ → Fin 256) : ℚ :=
  1 - symMean gray / 255

/-- True absolute difference of two 8-bit values. -/
def absDiff (a b : Fin 256) : ℕ :=
  max a.val b.val - min a.val b.val

/-- Modelled from the spec: the symmetry score as §4.2 step 8 of the spec
describes it, `1 − (mean absolute pixel difference between the left half
and the mirrored right half / 255)`, with a genuine absolute difference
instead of the wrap-around subtraction the numpy code performs. -/
def symmetryScoreSpec (gray : ℕ → ℕ → Fin 256) : ℚ :=
  1 - (∑ r in Finset.range 640, ∑ c in Finset.range 320,
        (absDiff (gray r c) (gray r (639 - c)) : ℚ)) / (640 * 320) / 255

/-- The canonical disease feature-name order: the `expected_features` list
of `prediction.py` lines 281-284, which is also exactly the key insertion
order of the map built by `extract_disease_features`. -/
def canonicalFeatureOrder : List String :=
  ["mean_r", "mean_g", "mean_b", "mean_h", "mean_s", "mean_v",
   "yellow_area_percent", "entropy"]
  ++ (List.range 26).map (fun i => "lbp_" ++ toString i)
  ++ ["spot_count", "edge_density", "symmetry_score"]

/-- Embedding of `BasilDiseasePredictor.extract_disease_features`
(`prediction.py` lines 121-179) as the association list of named features
in insertion order.  External library results enter as parameters: the
already-resized BGR image `resized`, its HSV conversion `hsvImg`, its
grayscale conversion `gray`, the shannon entropy `entropyVal`, the
uniform-LBP code map `lbp`, the Otsu/contour `spotCount`, and the Canny
mask `edges`.  The repository code contributes the channel choices
(`mean_r` reads BGR channel 2, `mean_b` channel 0), the yellow mask
fraction, the histogram normalisation and the symmetry formula. -/
def extract_disease_features (resized hsvImg : Image) (gray : ℕ → ℕ → Fin 256)
    (entropyVal : ℚ) (lbp : ℕ → ℕ → Fin 26) (spotCount : ℕ)
    (edges : ℕ → ℕ → Bool) : List (String × ℚ) :=
  [("mean_r", channelMean resized 640 640 2),
   ("mean_g", channelMean resized 640 640 1),
   ("mean_b", channelMean resized 640 640 0),
   ("mean_h", channelMean hsvImg 640 640 0),
   ("mean_s", channelMean hsvImg 640 640 1),
   ("mean_v", channelMean hsvImg 640 640 2),
   ("yellow_area_percent", yellowAreaPercent hsvImg),
   ("entropy", entropyVal)]
  ++ (List.range 26).map (fun i => ("lbp_" ++ toString i, lbpNorm lbp i))
  ++ [("spot_count", (spotCount : ℚ)),
      ("edge_density", edgeDensity edges),
      ("symmetry_score", symmetry_score gray)]

/-! ### Classifier artifacts and the model registry
(`prediction.py` lines 13-82)

A loaded classifier artifact: `predictFn` is its `predict` method on one
sample (a classifier may raise, hence `Except`); `probaFn` is `some` when
the object `hasattr predict_proba`; `featureNames` is `some` when the
object `hasattr feature_names_in_`.  A Python dict slot may hold `None`
(the load-time fallbacks can store `None` under a key), so registry values
are `Option MLModel` / `Option LabelEnc`: a key can be present while its
value is `none`. -/

structure MLModel where
  predictFn : List ℚ → Except String ℕ
  probaFn : Option (List ℚ → Except String (List ℚ))
  featureNames : Option (List String)

structure LabelEnc where
  inverse_transform : ℕ → Except String String

abbrev Registry := List (String × Option MLModel)
abbrev EncoderDict := List (String × Option LabelEnc)

/-- Keys of a Python dict in insertion order (`list(d.keys())`). -/
def dictKeys {α : Type} (d : List (String × α)) : List String :=
  d.map Prod.fst

/-- The model files a `BasilDiseasePredictor.load_models` run may find on
disk; `none` means the file is absent, `some` is the loaded artifact. -/
structure ModelFiles where
  rf_health : Option MLModel
  rf_disease : Option MLModel
  rf_encoder : Option LabelEnc
  svm_health : Option MLModel
  svm_disease : Option MLModel
  knn_health : Option MLModel
  knn_disease : Option MLModel
  knn_encoder : Option LabelEnc

/-- One conditional dict entry: a key is inserted only when the file
exists, and then holds the loaded object. -/
def fileEntry {α : Type} (key : String) (file : Option α) : List (String × Option α) :=
  match file with
  | some m => [(key, some m)]
  | none => []

/-- Embedding of `BasilDiseasePredictor.load_models` (`prediction.py`
lines 20-82): builds the `self.models` and `self.label_encoders` dicts in
source insertion order, with the three load-time fallbacks:
`label_encoders[svm] = label_encoders.get(random_forest)` when the SVM
disease model loads, `models[knn_disease] = models.get(random_forest_disease)`
when the KNN disease file is absent but the KNN health file exists, and
`label_encoders[knn] = label_encoders.get(random_forest)` when the KNN
encoder file is absent but `knn_health` is in the models dict.  A `.get`
on a missing key yields Python `None`, stored as a `none` value under a
present key. -/
def load_models (f : ModelFiles) : Registry × EncoderDict :=
  let models : Registry :=
    fileEntry "random_forest_health" f.rf_health
    ++ fileEntry "random_forest_disease" f.rf_disease
    ++ fileEntry "svm_health" f.svm_health
    ++ fileEntry "svm_disease" f.svm_disease
    ++ fileEntry "knn_health" f.knn_health
    ++ (match f.knn_disease, f.knn_health with
        | some m, _ => [("knn_disease", some m)]
        | none, some _ => [("knn_disease", f.rf_disease)]
        | none, none => [])
  let encoders : EncoderDict :=
    fileEntry "random_forest" f.rf_encoder
    ++ (if f.svm_disease.isSome then [("svm", f.rf_encoder)] else [])
    ++ (match f.knn_encoder, f.knn_health with
        | some e, _ => [("knn", some e)]
        | none, some _ => [("knn", f.rf_encoder)]
        | none, none => [])
  (models, encoders)

/-! ### The two-stage predictor (`prediction.py` lines 184-372) -/

/-- The result dict of `BasilDiseasePredictor.predict`.  Failure dicts
carry `message` and no `confidence` / `disease_info`; success dicts carry
`confidence` and `disease_info` and no `message`; `Option` fields model
key presence. -/
structure PredictionResult where
  success : Bool
  prediction : String
  confidence : Option ℚ
  disease_info : Option DiseaseInfo
  message : Option String
  processing_time : ℚ
deriving DecidableEq

/-- Instrumented predictor output: the returned dict plus a trace of
whether `extract_disease_features` was invoked on this request and, when a
disease classifier call was attempted, the feature vector handed to it. -/
structure PredictOut where
  result : PredictionResult
  diseaseExtractCalled : Bool
  diseaseVec : Option (List ℚ)

/-- A failure dict: `success=False`, `prediction="Error"`, a message, a
processing time, no confidence and no disease info. -/
def failResult (msg : String) (pt : ℚ) : PredictionResult :=
  { success := false, prediction := "Error", confidence := none,
    disease_info := none, message := some msg, processing_time := pt }

/-- Rendering of a key list inside a diagnostic message
(`list(self.models.keys())`). -/
def renderKeys (keys : List String) : String :=
  "[" ++ String.intercalate ", " keys ++ "]"

/-- The message of `prediction.py` line 214: the backend health model is
missing and the message enumerates the currently loaded model keys. -/
def unavailableMsg (modelType : String) (keys : List String) : String :=
  "Model " ++ modelType ++ " not available. Available models: " ++ renderKeys keys

/-- The text of the `AttributeError` raised when a `None` stored in a dict
slot is used as a model or encoder. -/
def noneAttrMsg (attr : String) : String :=
  "AttributeError: NoneType object has no attribute " ++ attr

/-- Per-request external inputs of one `predict` call: whether
`cv2.imread` decoded the image, the outcomes of the two feature
extractions (each may raise), and the sequence of `time.time()` readings
(`time 0` is `start_time`; later return sites read later indices). -/
structure RunEnv where
  imgLoaded : Bool
  healthFeats : Except String (List ℚ)
  diseaseFeats : Except String (List (String × ℚ))
  time : ℕ → ℚ

/-- Build the feature vector from the embedded
`feature_names_in_` metadata of the artifact: select the named features
from the extracted map, missing names defaulting to 0, in the column order
of the artifact (`prediction.py` lines 270-273 and 316-318). -/
def buildNamedVector (cols : List String) (df : List (String × ℚ)) : List ℚ :=
  cols.map (fun c => (df.lookup c).getD 0)

/-- Build the feature vector in the canonical `expected_features` order
(`prediction.py` lines 280-287). -/
def buildCanonicalVector (df : List (String × ℚ)) : List ℚ :=
  canonicalFeatureOrder.map (fun c => (df.lookup c).getD 0)

/-- Outcome of the disease-inference block, before label resolution:
either a class index with its confidence, an early-return failure dict
with a specific message, or a raised exception that will reach an
`except` handler. -/
inductive DiseaseStep where
  | done (dp : ℕ) (conf : ℚ)
  | fail (msg : String)
  | exc (e : String)

/-- The vector the KNN block hands to the classifier: built from the
per-artifact `feature_names_in_` metadata when present (`prediction.py`
lines 269-273), else in canonical order (lines 277-287). -/
def knnVecOf (dm : MLModel) (df : List (String × ℚ)) : List ℚ :=
  match dm.featureNames with
  | some cols => buildNamedVector cols df
  | none => buildCanonicalVector df

/-- The KNN disease confidence (`prediction.py` lines 293-303): default
0.75, replaced by `predict_proba(vec)[prediction]` when that succeeds; the
bare inner `except` swallows any error, keeping the default. -/
def knnConf (dm : MLModel) (vec : List ℚ) (dp : ℕ) : ℚ :=
  match dm.probaFn with
  | none => 75 / 100
  | some pf =>
    match pf vec with
    | .error _ => 75 / 100
    | .ok probs => (probs.get? dp).getD (75 / 100)

/-- The KNN disease-inference block (`prediction.py` lines 265-303, the
body of the inner `try`): build the vector, run `predict`, compute the
confidence.  A `None` stored under `knn_disease` has no
`feature_names_in_` attribute (`hasattr` is false) and raises
`AttributeError` at the `predict` call.  The second component is the
vector handed to the classifier, when one was. -/
def knnDiseaseStep (slot : Option MLModel) (df : List (String × ℚ)) :
    DiseaseStep × Option (List ℚ) :=
  match slot with
  | none => (.exc (noneAttrMsg "predict"), none)
  | some dm =>
    match dm.predictFn (knnVecOf dm df) with
    | .error e => (.exc e, some (knnVecOf dm df))
    | .ok dp => (.done dp (knnConf dm (knnVecOf dm df) dp), some (knnVecOf dm df))

/-- The RF/SVM disease-inference block (`prediction.py` lines 313-336):
only the `feature_names_in_` path exists; without metadata the code
returns the failure dict `Model feature names not available` (a `None`
slot also fails `hasattr` and lands there).  The `predict_proba` call and
the probability indexing are not wrapped in any local `try`, so their
errors propagate to the generic handler; without `predict_proba` the
confidence defaults to 0.75. -/
def stdDiseaseStep (slot : Option MLModel) (df : List (String × ℚ)) :
    DiseaseStep × Option (List ℚ) :=
  match slot with
  | none => (.fail "Model feature names not available", none)
  | some dm =>
    match dm.featureNames with
    | none => (.fail "Model feature names not available", none)
    | some cols =>
      match dm.predictFn (buildNamedVector cols df) with
      | .error e => (.exc e, some (buildNamedVector cols df))
      | .ok dp =>
        match dm.probaFn with
        | none => (.done dp (75 / 100), some (buildNamedVector cols df))
        | some pf =>
          match pf (buildNamedVector cols df) with
          | .error e => (.exc e, some (buildNamedVector cols df))
          | .ok probs =>
            match probs.get? dp with
            | none => (.exc "IndexError: index out of bounds",
                some (buildNamedVector cols df))
            | some c => (.done dp c, some (buildNamedVector cols df))

/-- Resolution of the disease model key (`prediction.py` lines 248-259):
`{model_type}_disease` if that key is present, else fall back to
`random_forest_disease`, else no model. -/
def resolveDiseaseKey (models : Registry) (modelType : String) :
    Option (Option MLModel) :=
  match models.lookup (modelType ++ "_disease") with
  | some slot => some slot
  | none => models.lookup "random_forest_disease"

/-- Dispatch between the KNN block and the RF/SVM block
(`prediction.py` line 265: the KNN block runs exactly when
`model_type == knn` and the key `knn_disease` is present), wrapping a KNN
exception into the message of the inner handler (`prediction.py`
lines 305-312). -/
def diseaseStepOf (models : Registry) (modelType : String)
    (slot : Option MLModel) (df : List (String × ℚ)) :
    DiseaseStep × Option (List ℚ) :=
  if modelType = "knn" ∧ (models.lookup "knn_disease").isSome then
    match knnDiseaseStep slot df with
    | (.exc e, v) => (.fail ("KNN disease prediction error: " ++ e), v)
    | s => s
  else
    stdDiseaseStep slot df

/-- The diseased branch of `predict` (`prediction.py` lines 242-361),
entered when the health class index is non-zero: extract disease features
(a raise reaches the generic handler), resolve the disease model key, run
the KNN block (whose exceptions become `KNN disease prediction error: ...`
via the inner handler) or the RF/SVM block (whose exceptions become
`Prediction error: ...` via the outer handler), then resolve the label
encoder (`model_type` if that encoder key is present, else
`random_forest`), decode the class index, look up the disease info and
assemble the success dict. -/
def diseasedBranch (models : Registry) (encoders : EncoderDict)
    (modelType : String) (env : RunEnv) : PredictOut :=
  let t := fun k => env.time k - env.time 0
  match env.diseaseFeats with
  | .error e => ⟨failResult ("Prediction error: " ++ e) (t 6), true, none⟩
  | .ok df =>
    match resolveDiseaseKey models modelType with
    | none =>
      ⟨failResult "No disease classification model available" (t 7), true, none⟩
    | some slot =>
      let step := diseaseStepOf models modelType slot df
      match step.1 with
      | .fail msg => ⟨failResult msg (t 8), true, step.2⟩
      | .exc e => ⟨failResult ("Prediction error: " ++ e) (t 9), true, step.2⟩
      | .done dp conf =>
        let encoderKey :=
          if (encoders.lookup modelType).isSome then modelType else "random_forest"
        match encoders.lookup encoderKey with
        | none => ⟨failResult "Label encoder not available" (t 10), true, step.2⟩
        | some none =>
          ⟨failResult ("Prediction error: " ++ noneAttrMsg "inverse_transform") (t 11),
           true, step.2⟩
        | some (some enc) =>
          match enc.inverse_transform dp with
          | .error e => ⟨failResult ("Prediction error: " ++ e) (t 11), true, step.2⟩
          | .ok disease_name =>
            let info := get_disease_info disease_name
            ⟨{ success := true,
               prediction := "Diseased Plant - " ++ info.name,
               confidence := some conf,
               disease_info := some info,
               message := none,
               processing_time := t 12 }, true, step.2⟩

/-- The health-stage confidence (`prediction.py` lines 222-230): default
0.95, replaced by `predict_proba([health_features])[0][health_prediction]`
when the model has `predict_proba` and that call and indexing succeed; the
bare `except` keeps the default on any error. -/
def healthConf (hm : MLModel) (hf : List ℚ) (hp : ℕ) : ℚ :=
  match hm.probaFn with
  | none => 95 / 100
  | some pf =>
    match pf hf with
    | .error _ => 95 / 100
    | .ok probs => (probs.get? hp).getD (95 / 100)

/-- Embedding of `BasilDiseasePredictor.predict` (`prediction.py`
lines 184-372).  All Python exception paths are values here: the function
is total, so nothing propagates past the predictor boundary; the generic
`except` handler of lines 363-372 appears as the `Prediction error: ...`
failure dicts.  `start_time` is `env.time 0` and every return site fills
`processing_time` with a later clock reading minus `env.time 0`. -/
def predict (models : Registry) (encoders : EncoderDict)
    (modelType : String) (env : RunEnv) : PredictOut :=
  let t := fun k => env.time k - env.time 0
  if env.imgLoaded = false then
    ⟨failResult "Could not load image" (t 1), false, none⟩
  else
    match env.healthFeats with
    | .error e => ⟨failResult ("Prediction error: " ++ e) (t 2), false, none⟩
    | .ok hf =>
      match models.lookup (modelType ++ "_health") with
      | none =>
        ⟨failResult (unavailableMsg modelType (dictKeys models)) (t 3), false, none⟩
      | some none =>
        ⟨failResult ("Prediction error: " ++ noneAttrMsg "predict") (t 4), false, none⟩
      | some (some hm) =>
        match hm.predictFn hf with
        | .error e => ⟨failResult ("Prediction error: " ++ e) (t 4), false, none⟩
        | .ok hp =>
          if hp = 0 then
            ⟨{ success := true,
               prediction := "Healthy Plant",
               confidence := some (healthConf hm hf hp),
               disease_info := some (get_disease_info "healthy_basil"),
               message := none,
               processing_time := t 5 }, false, none⟩
          else
            diseasedBranch models encoders modelType env

/-! ### Registry-level predicates used by the confidence claim -/

/-- Every probability vector the `predict_proba` of a model can return has all
entries in `[0,1]`. -/
def probaInRange (m : MLModel) : Prop :=
  ∀ pf v probs, m.probaFn = some pf → pf v = .ok probs →
    ∀ p ∈ probs, 0 ≤ p ∧ p ≤ 1

/-- Every model of the registry satisfies `probaInRange`. -/
def registryProbaInRange (models : Registry) : Prop :=
  ∀ key m, models.lookup key = some (some m) → probaInRange m

/-- No model of the registry exposes `predict_proba`. -/
def registryNoProba (models : Registry) : Prop :=
  ∀ key m, models.lookup key = some (some m) → m.probaFn = none

/-- The defensive shape of a predictor result: a failure carries a
non-empty message, and the processing time is a later `time.time()`
reading minus the start reading. -/
def defensiveResult (env : RunEnv) (r : PredictionResult) : Prop :=
  (r.success = false → ∃ m, r.message = some m ∧ 0 < m.length) ∧
  ∃ k, 1 ≤ k ∧ r.processing_time = env.time k - env.time 0

/-! ### Concrete artifacts and runs used by witnesses and counterexamples -/

/-- A health classifier that always answers class 0 (healthy). -/
def alwaysHealthyModel : MLModel :=
  { predictFn := fun _ => .ok 0, probaFn := none, featureNames := none }

/-- A health classifier that always answers class 1 (diseased). -/
def alwaysDiseasedModel : MLModel :=
  { predictFn := fun _ => .ok 1, probaFn := none, featureNames := none }

/-- A KNN disease classifier artifact carrying embedded feature-name
metadata in a non-canonical order. -/
def knnMetaModel : MLModel :=
  { predictFn := fun _ => .ok 0, probaFn := none, featureNames := some ["entropy"] }

/-- An RF disease classifier artifact without feature-name metadata. -/
def rfNoMetaModel : MLModel :=
  { predictFn := fun _ => .ok 0, probaFn := none, featureNames := none }

/-- An RF disease classifier artifact with feature-name metadata. -/
def rfMetaModel : MLModel :=
  { predictFn := fun _ => .ok 0, probaFn := none, featureNames := some ["entropy"] }

/-- An SVM disease classifier artifact with feature-name metadata. -/
def svmMetaModel : MLModel :=
  { predictFn := fun _ => .ok 0, probaFn := none, featureNames := some [] }

/-- An encoder decoding every class index to `downy_mildew`. -/
def mildewEncoder : LabelEnc :=
  { inverse_transform := fun _ => .ok "downy_mildew" }

/-- A sample extracted disease-feature map. -/
def dfSample : List (String × ℚ) := [("entropy", 7)]

/-- A benign request environment: the image decodes and both feature
extractions succeed. -/
def envHealthy : RunEnv :=
  { imgLoaded := true, healthFeats := .ok [], diseaseFeats := .ok [],
    time := fun _ => 0 }

/-- A request environment whose disease extraction yields `dfSample`. -/
def envDiseased : RunEnv :=
  { imgLoaded := true, healthFeats := .ok [], diseaseFeats := .ok dfSample,
    time := fun _ => 0 }

/-- A registry holding only a health model. -/
def modelsHealthyOnly : Registry :=
  [("random_forest_health", some alwaysHealthyModel)]

/-- A registry whose KNN disease classifier carries feature-name
metadata. -/
def modelsKnnMeta : Registry :=
  [("knn_health", some alwaysDiseasedModel), ("knn_disease", some knnMetaModel)]

def encodersKnn : EncoderDict := [("knn", some mildewEncoder)]

/-- A registry whose RF disease classifier has no feature-name metadata. -/
def modelsRfNoMeta : Registry :=
  [("random_forest_health", some alwaysDiseasedModel),
   ("random_forest_disease", some rfNoMetaModel)]

/-- A registry whose RF disease classifier has feature-name metadata. -/
def modelsRfMeta : Registry :=
  [("random_forest_health", some alwaysDiseasedModel),
   ("random_forest_disease", some rfMetaModel)]

def encodersRf : EncoderDict := [("random_forest", some mildewEncoder)]

/-- Load-time scenario: only the KNN health model file is on disk. -/
def filesKnnOnly : ModelFiles :=
  { rf_health := none, rf_disease := none, rf_encoder := none,
    svm_health := none, svm_disease := none,
    knn_health := some alwaysDiseasedModel, knn_disease := none,
    knn_encoder := none }

/-- Load-time scenario: the SVM model files are on disk but the
random-forest encoder file is missing. -/
def filesSvmNoEnc : ModelFiles :=
  { rf_health := none, rf_disease := none, rf_encoder := none,
    svm_health := some alwaysDiseasedModel, svm_disease := some svmMetaModel,
    knn_health := none, knn_disease := none, knn_encoder := none }

/-- Load-time scenario: the KNN model files are on disk but both encoder
files are missing. -/
def filesKnnNoEnc : ModelFiles :=
  { rf_health := none, rf_disease := none, rf_encoder := none,
    svm_health := none, svm_disease := none,
    knn_health := some alwaysDiseasedModel, knn_disease := some knnMetaModel,
    knn_encoder := none }

/-- A constant BGR image: blue channel 10, green 20, red 30. -/
def bgrTestImage : Image :=
  ⟨fun _ _ k => if k = 0 then 10 else if k = 1 then 20 else 30⟩

def glcmZero : GlcmProps := ⟨0, 0, 0, 0, 0⟩

/-- A grayscale raster whose left half (columns 0-319) is black and whose
right half is white. -/
def stripeGray : ℕ → ℕ → Fin 256 := fun _ c => if c < 320 then 0 else 255

/-! ### Theorems -/

/-- C1: whenever the health classification of the request yields class
index 0, `predict` returns a successful result with prediction
`Healthy Plant` and the `disease_info` of the healthy identifier, and the
disease feature extractor is never invoked on that request. -/
theorem C1_healthy_short_circuit (models : Registry) (encoders : EncoderDict)
    (modelType : String) (env : RunEnv) (hm : MLModel) (hf : List ℚ)
    (himg : env.imgLoaded = true)
    (hhf : env.healthFeats = .ok hf)
    (hlook : models.lookup (modelType ++ "_health") = some (some hm))
    (hpred : hm.predictFn hf = .ok 0) :
    (predict models encoders modelType env).result.success = true ∧
    (predict models encoders modelType env).result.prediction = "Healthy Plant" ∧
    (predict models encoders modelType env).result.disease_info =
      some (get_disease_info "healthy_basil") ∧
    (predict models encoders modelType env).diseaseExtractCalled = false := by
  simp [predict, himg, hhf, hlook, hpred]

/-- Witness for C1 at a concrete registry and request. -/
theorem C1_healthy_short_circuit_witness :
    (predict modelsHealthyOnly [] "random_forest" envHealthy).result.success = true ∧
    (predict modelsHealthyOnly [] "random_forest" envHealthy).result.prediction
      = "Healthy Plant" ∧
    (predict modelsHealthyOnly [] "random_forest" envHealthy).result.disease_info
      = some (get_disease_info "healthy_basil") ∧
    (predict modelsHealthyOnly [] "random_forest" envHealthy).diseaseExtractCalled
      = false :=
  C1_healthy_short_circuit modelsHealthyOnly [] "random_forest" envHealthy
    alwaysHealthyModel [] rfl rfl rfl rfl

/-- C6: when the health model key `{backend}_health` is absent from the
registry (and the request reaches the lookup: the image decoded and health
feature extraction succeeded), `predict` returns `success=false` with the
message that enumerates the currently loaded model keys. -/
theorem C6_missing_health_model (models : Registry) (encoders : EncoderDict)
    (modelType : String) (env : RunEnv) (hf : List ℚ)
    (himg : env.imgLoaded = true)
    (hhf : env.healthFeats = .ok hf)
    (hmiss : models.lookup (modelType ++ "_health") = none) :
    (predict models encoders modelType env).result.success = false ∧
    (predict models encoders modelType env).result.message =
      some (unavailableMsg modelType (dictKeys models)) := by
  simp [predict, himg, hhf, hmiss, failResult]

/-- Witness for C6: a registry holding only `random_forest_health`, asked
for the `svm` backend. -/
theorem C6_missing_health_model_witness :
    (predict modelsHealthyOnly [] "svm" envHealthy).result.success = false ∧
    (predict modelsHealthyOnly [] "svm" envHealthy).result.message =
      some (unavailableMsg "svm" (dictKeys modelsHealthyOnly)) :=
  C6_missing_health_model modelsHealthyOnly [] "svm" envHealthy [] rfl rfl rfl

/-- C4 (code bug): on a constant 256×256 BGR image with blue channel 10,
green 20 and red 30, the 6th health feature — the slot the claim says
holds the red-channel mean — equals the blue-channel mean 10, while the
red-channel mean is 30: `extract_health_features` indexes channels 0,1,2
of the BGR raster as if they were R,G,B, so positions 6-8 hold the blue,
green and red means, not the red, green and blue means. -/
theorem C4_health_channel_swap :
    extract_health_features bgrTestImage glcmZero 0
      = [0, 0, 0, 0, 0, 10, 20, 30, 0] ∧
    channelMean bgrTestImage 256 256 0 = 10 ∧
    channelMean bgrTestImage 256 256 2 = 30 ∧
    (extract_health_features bgrTestImage glcmZero 0).get? 5 ≠
      some (channelMean bgrTestImage 256 256 2) := by
  have v10 : ((10 : Fin 256) : ℕ) = 10 := rfl
  have v20 : ((20 : Fin 256) : ℕ) = 20 := rfl
  have v30 : ((30 : Fin 256) : ℕ) = 30 := rfl
  have h0 : channelMean bgrTestImage 256 256 0 = 10 := by
    simp [channelMean, channelSum, bgrTestImage, Finset.sum_const,
      Finset.card_range, v10]
    norm_num
  have h1 : channelMean bgrTestImage 256 256 1 = 20 := by
    simp [channelMean, channelSum, bgrTestImage, Finset.sum_const,
      Finset.card_range, v20]
    norm_num
  have h2 : channelMean bgrTestImage 256 256 2 = 30 := by
    simp [channelMean, channelSum, bgrTestImage, Finset.sum_const,
      Finset.card_range, v30]
    norm_num
  have hlist : extract_health_features bgrTestImage glcmZero 0
      = [0, 0, 0, 0, 0, 10, 20, 30, 0] := by
    simp [extract_health_features, glcmZero, h0, h1, h2]
  refine ⟨hlist, h0, h2, ?_⟩
  rw [hlist, h2]
  norm_num

/-- C9 (code bug): on a grayscale image whose left half is 0 and right
half is 255, the symmetry score of the code is `254/255` — the numpy `uint8`
subtraction `left - right` wraps modulo 256, so `np.abs(left - right)` is
1 per pixel — while the score described by the claim, built from the true
mean absolute pixel difference, is 0. -/
theorem C9_symmetry_wraparound :
    symmetry_score stripeGray = 254 / 255 ∧
    symmetryScoreSpec stripeGray = 0 ∧
    symmetry_score stripeGray ≠ symmetryScoreSpec stripeGray := by
  have hterm : ∀ r ∈ Finset.range 640, ∀ c ∈ Finset.range 320,
      (wrapSub (stripeGray r c) (stripeGray r (639 - c)) : ℚ) = 1 := by
    intro r _ c hc
    have h1 : c < 320 := Finset.mem_range.mp hc
    have h2 : ¬(639 - c < 320) := by omega
    have v0 : ((0 : Fin 256) : ℕ) = 0 := rfl
    have v255 : ((255 : Fin 256) : ℕ) = 255 := rfl
    simp [stripeGray, wrapSub, h1, h2, v0, v255]
  have habs : ∀ r ∈ Finset.range 640, ∀ c ∈ Finset.range 320,
      (absDiff (stripeGray r c) (stripeGray r (639 - c)) : ℚ) = 255 := by
    intro r _ c hc
    have h1 : c < 320 := Finset.mem_range.mp hc
    have h2 : ¬(639 - c < 320) := by omega
    have v0 : ((0 : Fin 256) : ℕ) = 0 := rfl
    have v255 : ((255 : Fin 256) : ℕ) = 255 := rfl
    simp [stripeGray, absDiff, h1, h2, v0, v255]
  have hcode : symmetry_score stripeGray = 254 / 255 := by
    unfold symmetry_score symMean
    rw [Finset.sum_congr rfl
      (fun r hr => Finset.sum_congr rfl (fun c hc => hterm r hr c hc))]
    simp [Finset.sum_const, Finset.card_range]
    norm_num
  have hspec : symmetryScoreSpec stripeGray = 0 := by
    unfold symmetryScoreSpec
    rw [Finset.sum_congr rfl
      (fun r hr => Finset.sum_congr rfl (fun c hc => habs r hr c hc))]
    simp [Finset.sum_const, Finset.card_range]
    norm_num
  refine ⟨hcode, hspec, ?_⟩
  rw [hcode, hspec]
  norm_num

/-! ### Shared helper lemmas -/

theorem pixelGrid_card : pixelGrid.card = 409600 := by
  simp [pixelGrid, Finset.card_range]

/-- Every pixel of the 640×640 grid lands in exactly one of the 26 LBP
bins, so `hist.sum()` is the pixel count. -/
theorem histSum_eq_total (lbp : ℕ → ℕ → Fin 26) : histSum lbp = 409600 := by
  have hmem : ∀ p ∈ pixelGrid,
      (fun q : ℕ × ℕ => (lbp q.1 q.2).val) p ∈ Finset.range 26 := by
    intro p _
    exact Finset.mem_range.mpr (Fin.is_lt _)
  have h := Finset.card_eq_sum_card_fiberwise hmem
  unfold histSum histCount
  rw [← h]
  exact pixelGrid_card

/-- The normalised LBP histogram sums to `S / (S + 1e-6)` with
`S = 409600`. -/
theorem lbpNorm_sum (lbp : ℕ → ℕ → Fin 26) :
    ∑ i in Finset.range 26, lbpNorm lbp i
      = 409600 / (409600 + 1 / 1000000 : ℚ) := by
  unfold lbpNorm
  rw [← Finset.sum_div, histSum_eq_total]
  norm_num
  rw [← Nat.cast_sum]
  rw [show ∑ i in Finset.range 26, histCount lbp i = histSum lbp from rfl,
    histSum_eq_total]
  norm_num

/-- Once the health stage answers a non-zero class, `predict` is the
diseased branch. -/
theorem predict_diseased (models : Registry) (encoders : EncoderDict)
    (modelType : String) (env : RunEnv) (hm : MLModel) (hf : List ℚ) (hp : ℕ)
    (himg : env.imgLoaded = true)
    (hhf : env.healthFeats = .ok hf)
    (hlook : models.lookup (modelType ++ "_health") = some (some hm))
    (hpred : hm.predictFn hf = .ok hp) (hpnz : hp ≠ 0) :
    predict models encoders modelType env
      = diseasedBranch models encoders modelType env := by
  simp [predict, himg, hhf, hlook, hpred, hpnz]

/-- The traced disease vector of the diseased branch is the second
component of its dispatched inference step. -/
theorem diseasedBranch_vec (models : Registry) (encoders : EncoderDict)
    (modelType : String) (env : RunEnv) (df : List (String × ℚ))
    (slot : Option MLModel)
    (hdf : env.diseaseFeats = .ok df)
    (hres : resolveDiseaseKey models modelType = some slot) :
    (diseasedBranch models encoders modelType env).diseaseVec
      = (diseaseStepOf models modelType slot df).2 := by
  unfold diseasedBranch
  simp only [hdf, hres]
  repeat' split
  all_goals rfl

/-- A `fail` step surfaces as that exact failure message. -/
theorem diseasedBranch_fail_result (models : Registry) (encoders : EncoderDict)
    (modelType : String) (env : RunEnv) (df : List (String × ℚ))
    (slot : Option MLModel) (msg : String)
    (hdf : env.diseaseFeats = .ok df)
    (hres : resolveDiseaseKey models modelType = some slot)
    (hstep : (diseaseStepOf models modelType slot df).1 = .fail msg) :
    (diseasedBranch models encoders modelType env).result.success = false ∧
    (diseasedBranch models encoders modelType env).result.message = some msg := by
  unfold diseasedBranch
  simp [hdf, hres, hstep, failResult]

/-- C8: disease feature extraction always yields exactly 37 named features
(8 colour/texture scalars, the 26 LBP bins `lbp_0..lbp_25`, then
`spot_count`, `edge_density`, `symmetry_score`) and the 26 normalised LBP
histogram values sum to 1 within `1e-6`. -/
theorem C8_disease_feature_shape (resized hsvImg : Image)
    (gray : ℕ → ℕ → Fin 256) (entropyVal : ℚ) (lbp : ℕ → ℕ → Fin 26)
    (spotCount : ℕ) (edges : ℕ → ℕ → Bool) :
    (extract_disease_features resized hsvImg gray entropyVal lbp spotCount
        edges).length = 37 ∧
    (extract_disease_features resized hsvImg gray entropyVal lbp spotCount
        edges).map Prod.fst = canonicalFeatureOrder ∧
    (((extract_disease_features resized hsvImg gray entropyVal lbp spotCount
        edges).drop 8).take 26).map Prod.snd
      = (List.range 26).map (fun i => lbpNorm lbp i) ∧
    |(∑ i in Finset.range 26, lbpNorm lbp i) - 1| ≤ 1 / 1000000 := by
  refine ⟨?_, ?_, ?_, ?_⟩
  · simp [extract_disease_features]
  · simp [extract_disease_features, canonicalFeatureOrder]
  · have hlen : ((List.range 26).map
        (fun i => ("lbp_" ++ toString i, lbpNorm lbp i))).length = 26 := by simp
    simp [extract_disease_features, List.take_left' hlen]
  · rw [lbpNorm_sum, abs_le]
    constructor <;> norm_num

/-- C2 counterexample: a diseased-branch KNN prediction whose KNN disease
classifier carries feature-name metadata `[entropy]`; the prediction
succeeds but the vector handed to the classifier is `[7]`, built in the
metadata order of the artifact, not the 37-entry canonical-order vector the
claim requires. -/
theorem C2_knn_canonical_refuted :
    (predict modelsKnnMeta encodersKnn "knn" envDiseased).result.success = true ∧
    (predict modelsKnnMeta encodersKnn "knn" envDiseased).diseaseVec = some [7] ∧
    (predict modelsKnnMeta encodersKnn "knn" envDiseased).diseaseVec ≠
      some (buildCanonicalVector dfSample) := by
  refine ⟨rfl, rfl, ?_⟩
  decide

/-- C2 amended: in a diseased-branch KNN prediction with a KNN disease
classifier present, the vector handed to the classifier is built from the
embedded feature-name metadata of the artifact (missing names defaulting
to 0, in the order the artifact carries) when such metadata exists, and in the
canonical order only when it does not. -/
theorem C2_knn_vector_assembly (models : Registry) (encoders : EncoderDict)
    (env : RunEnv) (hm dm : MLModel) (hf : List ℚ) (df : List (String × ℚ))
    (hp : ℕ)
    (himg : env.imgLoaded = true)
    (hhf : env.healthFeats = .ok hf)
    (hlook : models.lookup "knn_health" = some (some hm))
    (hpred : hm.predictFn hf = .ok hp) (hpnz : hp ≠ 0)
    (hdf : env.diseaseFeats = .ok df)
    (hdlook : models.lookup "knn_disease" = some (some dm)) :
    (predict models encoders "knn" env).diseaseVec =
      some (match dm.featureNames with
            | some cols => buildNamedVector cols df
            | none => buildCanonicalVector df) := by
  rw [predict_diseased models encoders "knn" env hm hf hp himg hhf hlook hpred hpnz]
  have hres : resolveDiseaseKey models "knn" = some (some dm) := by
    unfold resolveDiseaseKey
    rw [show ("knn" ++ "_disease" : String) = "knn_disease" from rfl, hdlook]
  rw [diseasedBranch_vec models encoders "knn" env df (some dm) hdf hres]
  simp only [diseaseStepOf, hdlook, Option.isSome_some, and_true, if_pos rfl,
    knnDiseaseStep]
  rcases hpd : dm.predictFn (knnVecOf dm df) with e | dp <;>
    simp [hpd, knnVecOf]

/-- Witness for the amended C2 at a concrete registry and request. -/
theorem C2_knn_vector_assembly_witness :
    (predict modelsKnnMeta encodersKnn "knn" envDiseased).diseaseVec
      = some (buildNamedVector ["entropy"] dfSample) :=
  C2_knn_vector_assembly modelsKnnMeta encodersKnn envDiseased
    alwaysDiseasedModel knnMetaModel [] dfSample 1 rfl rfl rfl rfl
    (by decide) rfl rfl

/-- C3 counterexample: a diseased-branch `random_forest` prediction whose
disease classifier carries no feature-name metadata; instead of building
the canonical-order vector and proceeding, `predict` returns
`success=false` with `Model feature names not available` and no vector is
ever handed to the classifier. -/
theorem C3_canonical_fallback_refuted :
    (predict modelsRfNoMeta [] "random_forest" envDiseased).result.success
      = false ∧
    (predict modelsRfNoMeta [] "random_forest" envDiseased).result.message
      = some "Model feature names not available" ∧
    (predict modelsRfNoMeta [] "random_forest" envDiseased).diseaseVec = none := by
  exact ⟨rfl, rfl, rfl⟩

/-- C3 amended: in a diseased-branch `random_forest` or `svm` prediction,
if the disease classifier artifact carries embedded feature-name metadata
the input vector is built by selecting exactly those named features
(missing names defaulting to 0) in the order the artifact carries; if it does
not, `predict` returns `success=false` with the message
`Model feature names not available` instead of falling back to the
canonical order. -/
theorem C3_std_vector_assembly (models : Registry) (encoders : EncoderDict)
    (modelType : String) (env : RunEnv) (hm dm : MLModel) (hf : List ℚ)
    (df : List (String × ℚ)) (hp : ℕ)
    (hmt : modelType = "random_forest" ∨ modelType = "svm")
    (himg : env.imgLoaded = true)
    (hhf : env.healthFeats = .ok hf)
    (hlook : models.lookup (modelType ++ "_health") = some (some hm))
    (hpred : hm.predictFn hf = .ok hp) (hpnz : hp ≠ 0)
    (hdf : env.diseaseFeats = .ok df)
    (hdlook : models.lookup (modelType ++ "_disease") = some (some dm)) :
    (∀ cols, dm.featureNames = some cols →
      (predict models encoders modelType env).diseaseVec
        = some (buildNamedVector cols df)) ∧
    (dm.featureNames = none →
      (predict models encoders modelType env).result.success = false ∧
      (predict models encoders modelType env).result.message
        = some "Model feature names not available") := by
  have hknn : ¬(modelType = "knn" ∧ (models.lookup "knn_disease").isSome) := by
    rcases hmt with h | h <;> subst h <;> simp
  have hres : resolveDiseaseKey models modelType = some (some dm) := by
    unfold resolveDiseaseKey
    rw [hdlook]
  rw [predict_diseased models encoders modelType env hm hf hp himg hhf hlook
    hpred hpnz]
  constructor
  · intro cols hfn
    rw [diseasedBranch_vec models encoders modelType env df (some dm) hdf hres]
    simp only [diseaseStepOf, if_neg hknn, stdDiseaseStep, hfn]
    repeat' split
    all_goals rfl
  · intro hfn
    exact diseasedBranch_fail_result models encoders modelType env df (some dm)
      "Model feature names not available" hdf hres
      (by simp [diseaseStepOf, if_neg hknn, stdDiseaseStep, hfn])

/-- Witness for the amended C3 at a concrete registry and request. -/
theorem C3_std_vector_assembly_witness :
    (predict modelsRfMeta encodersRf "random_forest" envDiseased).diseaseVec
      = some (buildNamedVector ["entropy"] dfSample) :=
  (C3_std_vector_assembly modelsRfMeta encodersRf "random_forest" envDiseased
    alwaysDiseasedModel rfMetaModel [] dfSample 1 (Or.inl rfl) rfl rfl rfl rfl
    (by decide) rfl rfl).1 ["entropy"] rfl

theorem len_append_pos (s t : String) (h : 0 < s.length) : 0 < (s ++ t).length := by
  rw [String.length_append]
  omega

theorem unavailableMsg_len (modelType : String) (keys : List String) :
    0 < (unavailableMsg modelType keys).length := by
  unfold unavailableMsg
  rw [String.length_append, String.length_append, String.length_append]
  have h : 0 < "Model ".length := by decide
  omega

/-- The KNN block itself never produces an early-return failure: its
failures are exceptions, wrapped by the inner handler. -/
theorem knnDiseaseStep_no_fail (slot : Option MLModel) (df : List (String × ℚ))
    (msg : String) : (knnDiseaseStep slot df).1 ≠ DiseaseStep.fail msg := by
  unfold knnDiseaseStep
  rcases slot with _ | dm
  · simp
  · rcases hpd : dm.predictFn (knnVecOf dm df) with e | dp <;> simp [hpd]

/-- The only early-return failure of the RF/SVM block is the missing
feature-name message. -/
theorem stdDiseaseStep_fail_msg (slot : Option MLModel) (df : List (String × ℚ))
    (msg : String) (h : (stdDiseaseStep slot df).1 = .fail msg) :
    msg = "Model feature names not available" := by
  unfold stdDiseaseStep at h
  rcases slot with _ | dm
  · simp at h
    exact h.symm
  · rcases hfn : dm.featureNames with _ | cols
    · simp [hfn] at h
      exact h.symm
    · rcases hpd : dm.predictFn (buildNamedVector cols df) with e | dp <;>
        simp [hfn, hpd] at h
      rcases hpb : dm.probaFn with _ | pf <;> simp [hpb] at h
      rcases hpf : pf (buildNamedVector cols df) with e2 | probs <;>
        simp [hpf] at h
      rcases hg : probs[dp]? with _ | c <;> simp [hg] at h

/-- Any early-return failure message of the dispatched inference step is
non-empty. -/
theorem diseaseStepOf_fail_len (models : Registry) (modelType : String)
    (slot : Option MLModel) (df : List (String × ℚ)) (msg : String)
    (h : (diseaseStepOf models modelType slot df).1 = .fail msg) :
    0 < msg.length := by
  unfold diseaseStepOf at h
  by_cases hc : modelType = "knn" ∧ (models.lookup "knn_disease").isSome
  · rw [if_pos hc] at h
    rcases hk : knnDiseaseStep slot df with ⟨s1, v⟩
    rw [hk] at h
    rcases s1 with ⟨dp, conf⟩ | m | e
    · simp at h
    · have hk1 : (knnDiseaseStep slot df).1 = .fail m := by rw [hk]
      exact absurd hk1 (knnDiseaseStep_no_fail slot df m)
    · simp at h
      rw [← h]
      exact len_append_pos _ _ (by decide)
  · rw [if_neg hc] at h
    rw [stdDiseaseStep_fail_msg slot df msg h]
    decide

/-- The diseased branch always produces a defensively-shaped result. -/
theorem diseasedBranch_defensive (models : Registry) (encoders : EncoderDict)
    (modelType : String) (env : RunEnv) :
    defensiveResult env (diseasedBranch models encoders modelType env).result := by
  unfold defensiveResult diseasedBranch
  rcases hdf : env.diseaseFeats with e | df
  · simp only [hdf]
    exact ⟨fun _ => ⟨_, rfl, len_append_pos _ _ (by decide)⟩, 6, by norm_num, rfl⟩
  · simp only [hdf]
    rcases hres : resolveDiseaseKey models modelType with _ | slot
    · simp only [hres]
      exact ⟨fun _ => ⟨_, rfl, by decide⟩, 7, by norm_num, rfl⟩
    · simp only [hres]
      rcases hstep : (diseaseStepOf models modelType slot df).1 with
        ⟨dp, conf⟩ | msg | e
      · simp only [hstep]
        rcases hek : encoders.lookup
            (if (encoders.lookup modelType).isSome then modelType
             else "random_forest") with _ | eslot
        · simp only [hek]
          exact ⟨fun _ => ⟨_, rfl, by decide⟩, 10, by norm_num, rfl⟩
        · rcases eslot with _ | enc
          · simp only [hek]
            exact ⟨fun _ => ⟨_, rfl, len_append_pos _ _ (by decide)⟩,
              11, by norm_num, rfl⟩
          · simp only [hek]
            rcases hinv : enc.inverse_transform dp with e2 | nm
            · simp only [hinv]
              exact ⟨fun _ => ⟨_, rfl, len_append_pos _ _ (by decide)⟩,
                11, by norm_num, rfl⟩
            · simp only [hinv]
              exact ⟨fun hs => absurd hs (by simp), 12, by norm_num, rfl⟩
      · simp only [hstep]
        exact ⟨fun _ =>
          ⟨msg, rfl, diseaseStepOf_fail_len models modelType slot df msg hstep⟩,
          8, by norm_num, rfl⟩
      · simp only [hstep]
        exact ⟨fun _ => ⟨_, rfl, len_append_pos _ _ (by decide)⟩,
          9, by norm_num, rfl⟩

/-- C5: `predict` never lets an exception past the predictor boundary —
it is a total function in this embedding, with every Python raise
converted into a returned dict — and every failure result carries
`success=false` together with a non-empty human-readable message, while
every result (success or failure) carries a `processing_time` equal to a
later `time.time()` reading minus the reading taken at the start of the
request. -/
theorem C5_defensive_boundary (models : Registry) (encoders : EncoderDict)
    (modelType : String) (env : RunEnv) :
    ((predict models encoders modelType env).result.success = false →
      ∃ m, (predict models encoders modelType env).result.message = some m ∧
        0 < m.length) ∧
    ∃ k, 1 ≤ k ∧
      (predict models encoders modelType env).result.processing_time
        = env.time k - env.time 0 := by
  have hd := diseasedBranch_defensive models encoders modelType env
  unfold defensiveResult at hd
  rcases himg : env.imgLoaded with _ | _
  · have hq : predict models encoders modelType env
        = ⟨failResult "Could not load image" (env.time 1 - env.time 0),
           false, none⟩ := by
      simp [predict, himg]
    rw [hq]
    exact ⟨fun _ => ⟨_, rfl, by decide⟩, 1, by norm_num, rfl⟩
  · rcases hhf : env.healthFeats with e | hf
    · have hq : predict models encoders modelType env
          = ⟨failResult ("Prediction error: " ++ e) (env.time 2 - env.time 0),
             false, none⟩ := by
        simp [predict, himg, hhf]
      rw [hq]
      exact ⟨fun _ => ⟨_, rfl, len_append_pos _ _ (by decide)⟩,
        2, by norm_num, rfl⟩
    · rcases hlk : models.lookup (modelType ++ "_health") with _ | slot
      · have hq : predict models encoders modelType env
            = ⟨failResult (unavailableMsg modelType (dictKeys models))
                (env.time 3 - env.time 0), false, none⟩ := by
          simp [predict, himg, hhf, hlk]
        rw [hq]
        exact ⟨fun _ => ⟨_, rfl, unavailableMsg_len _ _⟩, 3, by norm_num, rfl⟩
      · rcases slot with _ | hm
        · have hq : predict models encoders modelType env
              = ⟨failResult ("Prediction error: " ++ noneAttrMsg "predict")
                  (env.time 4 - env.time 0), false, none⟩ := by
            simp [predict, himg, hhf, hlk]
          rw [hq]
          exact ⟨fun _ => ⟨_, rfl, len_append_pos _ _ (by decide)⟩,
            4, by norm_num, rfl⟩
        · rcases hpd : hm.predictFn hf with e | hp2
          · have hq : predict models encoders modelType env
                = ⟨failResult ("Prediction error: " ++ e)
                    (env.time 4 - env.time 0), false, none⟩ := by
              simp [predict, himg, hhf, hlk, hpd]
            rw [hq]
            exact ⟨fun _ => ⟨_, rfl, len_append_pos _ _ (by decide)⟩,
              4, by norm_num, rfl⟩
          · by_cases hz : hp2 = 0
            · subst hz
              have hq : predict models encoders modelType env
                  = ⟨{ success := true,
                       prediction := "Healthy Plant",
                       confidence := some (healthConf hm hf 0),
                       disease_info := some (get_disease_info "healthy_basil"),
                       message := none,
                       processing_time := env.time 5 - env.time 0 },
                     false, none⟩ := by
                simp [predict, himg, hhf, hlk, hpd]
              rw [hq]
              exact ⟨fun hs => absurd hs (by simp), 5, by norm_num, rfl⟩
            · rw [predict_diseased models encoders modelType env hm hf hp2
                himg hhf hlk hpd hz]
              exact hd

theorem getD_range (probs : List ℚ) (dp : ℕ) (d : ℚ) (hd : 0 ≤ d ∧ d ≤ 1)
    (hp : ∀ p ∈ probs, 0 ≤ p ∧ p ≤ 1) :
    0 ≤ (probs.get? dp).getD d ∧ (probs.get? dp).getD d ≤ 1 := by
  rcases hg : probs.get? dp with _ | p
  · simpa [hg] using hd
  · have hm : p ∈ probs := List.get?_mem hg
    simpa [hg] using hp p hm

theorem healthConf_range (hm : MLModel) (hf : List ℚ) (hp : ℕ)
    (hr : probaInRange hm) :
    0 ≤ healthConf hm hf hp ∧ healthConf hm hf hp ≤ 1 := by
  unfold healthConf
  rcases hpb : hm.probaFn with _ | pf
  · norm_num
  · rcases hpf : pf hf with e | probs <;> simp only [hpf]
    · norm_num
    · simpa using getD_range probs hp (95 / 100) (by norm_num)
        (hr pf hf probs hpb hpf)

theorem healthConf_noproba (hm : MLModel) (hf : List ℚ) (hp : ℕ)
    (h : hm.probaFn = none) : healthConf hm hf hp = 95 / 100 := by
  unfold healthConf
  rw [h]

theorem knnConf_range (dm : MLModel) (vec : List ℚ) (dp : ℕ)
    (hr : probaInRange dm) :
    0 ≤ knnConf dm vec dp ∧ knnConf dm vec dp ≤ 1 := by
  unfold knnConf
  rcases hpb : dm.probaFn with _ | pf
  · norm_num
  · rcases hpf : pf vec with e | probs <;> simp only [hpf]
    · norm_num
    · simpa using getD_range probs dp (75 / 100) (by norm_num)
        (hr pf vec probs hpb hpf)

theorem knnDiseaseStep_done_conf (slot : Option MLModel)
    (df : List (String × ℚ)) (dp : ℕ) (conf : ℚ)
    (hr : ∀ m, slot = some m → probaInRange m)
    (h : (knnDiseaseStep slot df).1 = .done dp conf) :
    0 ≤ conf ∧ conf ≤ 1 := by
  unfold knnDiseaseStep at h
  rcases slot with _ | dm
  · simp at h
  · rcases hpd : dm.predictFn (knnVecOf dm df) with e | dp2 <;> simp [hpd] at h
    obtain ⟨h1, h2⟩ := h
    rw [← h2]
    exact knnConf_range dm _ _ (hr dm rfl)

theorem knnDiseaseStep_done_noproba (slot : Option MLModel)
    (df : List (String × ℚ)) (dp : ℕ) (conf : ℚ)
    (hr : ∀ m, slot = some m → m.probaFn = none)
    (h : (knnDiseaseStep slot df).1 = .done dp conf) : conf = 75 / 100 := by
  unfold knnDiseaseStep at h
  rcases slot with _ | dm
  · simp at h
  · rcases hpd : dm.predictFn (knnVecOf dm df) with e | dp2 <;> simp [hpd] at h
    obtain ⟨h1, h2⟩ := h
    rw [← h2]
    unfold knnConf
    rw [hr dm rfl]

theorem stdDiseaseStep_done_conf (slot : Option MLModel)
    (df : List (String × ℚ)) (dp : ℕ) (conf : ℚ)
    (hr : ∀ m, slot = some m → probaInRange m)
    (h : (stdDiseaseStep slot df).1 = .done dp conf) :
    0 ≤ conf ∧ conf ≤ 1 := by
  unfold stdDiseaseStep at h
  rcases slot with _ | dm
  · simp at h
  · rcases hfn : dm.featureNames with _ | cols <;> simp [hfn] at h
    rcases hpd : dm.predictFn (buildNamedVector cols df) with e | dp2 <;>
      simp [hpd] at h
    rcases hpb : dm.probaFn with _ | pf <;> simp [hpb] at h
    · obtain ⟨h1, h2⟩ := h
      rw [← h2]
      norm_num
    · rcases hpf : pf (buildNamedVector cols df) with e2 | probs <;>
        simp [hpf] at h
      rcases hg : probs[dp2]? with _ | c <;> simp [hg] at h
      obtain ⟨h1, h2⟩ := h
      rw [← h2]
      have hmem : c ∈ probs := by
        have : probs.get? dp2 = some c := by simpa using hg
        exact List.get?_mem this
      exact hr dm rfl pf (buildNamedVector cols df) probs hpb hpf c hmem

theorem stdDiseaseStep_done_noproba (slot : Option MLModel)
    (df : List (String × ℚ)) (dp : ℕ) (conf : ℚ)
    (hr : ∀ m, slot = some m → m.probaFn = none)
    (h : (stdDiseaseStep slot df).1 = .done dp conf) : conf = 75 / 100 := by
  unfold stdDiseaseStep at h
  rcases slot with _ | dm
  · simp at h
  · rcases hfn : dm.featureNames with _ | cols <;> simp [hfn] at h
    rcases hpd : dm.predictFn (buildNamedVector cols df) with e | dp2 <;>
      simp [hpd] at h
    rw [hr dm rfl] at h
    simp at h
    exact h.2.symm

theorem resolveDiseaseKey_lookup (models : Registry) (modelType : String)
    (slot : Option MLModel)
    (h : resolveDiseaseKey models modelType = some slot) :
    ∃ key, models.lookup key = some slot := by
  unfold resolveDiseaseKey at h
  rcases hl : models.lookup (modelType ++ "_disease") with _ | s
  · rw [hl] at h
    exact ⟨"random_forest_disease", h⟩
  · rw [hl] at h
    exact ⟨modelType ++ "_disease", hl.trans h⟩

theorem diseaseStepOf_done (models : Registry) (modelType : String)
    (slot : Option MLModel) (df : List (String × ℚ)) (dp : ℕ) (conf : ℚ)
    (h : (diseaseStepOf models modelType slot df).1 = .done dp conf) :
    (knnDiseaseStep slot df).1 = .done dp conf ∨
    (stdDiseaseStep slot df).1 = .done dp conf := by
  unfold diseaseStepOf at h
  by_cases hc : modelType = "knn" ∧ (models.lookup "knn_disease").isSome
  · rw [if_pos hc] at h
    left
    rcases hk : knnDiseaseStep slot df with ⟨s1, v⟩
    rw [hk] at h
    rcases s1 with ⟨dp2, c2⟩ | m | e
    · simpa using h
    · simp at h
    · simp at h
  · rw [if_neg hc] at h
    right
    exact h

/-- Confidence facts for the diseased branch: on success the confidence is
in `[0,1]` (given in-range probabilities), equals the 0.75 default when no
registry model has `predict_proba`, and the prediction string is never
`Healthy Plant`. -/
theorem diseasedBranch_conf (models : Registry) (encoders : EncoderDict)
    (modelType : String) (env : RunEnv)
    (hr : registryProbaInRange models) :
    ((diseasedBranch models encoders modelType env).result.success = true →
      ∃ c, (diseasedBranch models encoders modelType env).result.confidence
          = some c ∧ 0 ≤ c ∧ c ≤ 1) ∧
    (registryNoProba models →
      (diseasedBranch models encoders modelType env).result.success = true →
      (diseasedBranch models encoders modelType env).result.confidence
        = some (75 / 100)) ∧
    ((diseasedBranch models encoders modelType env).result.success = true →
      (diseasedBranch models encoders modelType env).result.prediction
        ≠ "Healthy Plant") := by
  unfold diseasedBranch
  rcases hdf : env.diseaseFeats with e | df
  · simp only [hdf]
    exact ⟨fun hs => absurd hs (by simp [failResult]),
      fun _ hs => absurd hs (by simp [failResult]),
      fun hs => absurd hs (by simp [failResult])⟩
  · simp only [hdf]
    rcases hres : resolveDiseaseKey models modelType with _ | slot
    · simp only [hres]
      exact ⟨fun hs => absurd hs (by simp [failResult]),
        fun _ hs => absurd hs (by simp [failResult]),
        fun hs => absurd hs (by simp [failResult])⟩
    · simp only [hres]
      have hslotm : ∀ m, slot = some m → probaInRange m := by
        intro m hsl
        obtain ⟨key, hkey⟩ := resolveDiseaseKey_lookup models modelType slot hres
        subst hsl
        exact hr key m hkey
      have hslotnp : registryNoProba models →
          ∀ m, slot = some m → m.probaFn = none := by
        intro hnp m hsl
        obtain ⟨key, hkey⟩ := resolveDiseaseKey_lookup models modelType slot hres
        subst hsl
        exact hnp key m hkey
      rcases hstep : (diseaseStepOf models modelType slot df).1 with
        ⟨dp, conf⟩ | msg | e
      · simp only [hstep]
        have hconf : 0 ≤ conf ∧ conf ≤ 1 := by
          rcases diseaseStepOf_done models modelType slot df dp conf hstep with
            hk | hs
          · exact knnDiseaseStep_done_conf slot df dp conf hslotm hk
          · exact stdDiseaseStep_done_conf slot df dp conf hslotm hs
        have hconfnp : registryNoProba models → conf = 75 / 100 := by
          intro hnp
          rcases diseaseStepOf_done models modelType slot df dp conf hstep with
            hk | hs
          · exact knnDiseaseStep_done_noproba slot df dp conf (hslotnp hnp) hk
          · exact stdDiseaseStep_done_noproba slot df dp conf (hslotnp hnp) hs
        rcases hek : encoders.lookup
            (if (encoders.lookup modelType).isSome then modelType
             else "random_forest") with _ | eslot
        · simp only [hek]
          exact ⟨fun hs => absurd hs (by simp [failResult]),
            fun _ hs => absurd hs (by simp [failResult]),
            fun hs => absurd hs (by simp [failResult])⟩
        · rcases eslot with _ | enc
          · simp only [hek]
            exact ⟨fun hs => absurd hs (by simp [failResult]),
              fun _ hs => absurd hs (by simp [failResult]),
              fun hs => absurd hs (by simp [failResult])⟩
          · simp only [hek]
            rcases hinv : enc.inverse_transform dp with e2 | nm
            · simp only [hinv]
              exact ⟨fun hs => absurd hs (by simp [failResult]),
                fun _ hs => absurd hs (by simp [failResult]),
                fun hs => absurd hs (by simp [failResult])⟩
            · simp only [hinv]
              refine ⟨fun _ => ⟨conf, rfl, hconf⟩,
                fun hnp _ => by rw [hconfnp hnp], fun _ heq => ?_⟩
              have hlen := congrArg String.length heq
              rw [String.length_append] at hlen
              have h17 : "Diseased Plant - ".length = 17 := by decide
              have h13 : "Healthy Plant".length = 13 := by decide
              omega
      · simp only [hstep]
        exact ⟨fun hs => absurd hs (by simp [failResult]),
          fun _ hs => absurd hs (by simp [failResult]),
          fun hs => absurd hs (by simp [failResult])⟩
      · simp only [hstep]
        exact ⟨fun hs => absurd hs (by simp [failResult]),
          fun _ hs => absurd hs (by simp [failResult]),
          fun hs => absurd hs (by simp [failResult])⟩

/-- C7: assuming every `predict_proba` of the registry returns
probabilities in `[0,1]`, the confidence of every successful result lies
in `[0,1]`; and when no registry model can supply a probability, the fixed
defaults are used — 0.95 for the health stage (the `Healthy Plant`
result) and 0.75 for the disease stage (the diseased result). -/
theorem C7_confidence_bounds (models : Registry) (encoders : EncoderDict)
    (modelType : String) (env : RunEnv)
    (hr : registryProbaInRange models) :
    ((predict models encoders modelType env).result.success = true →
      ∃ c, (predict models encoders modelType env).result.confidence = some c ∧
        0 ≤ c ∧ c ≤ 1) ∧
    (registryNoProba models →
      (predict models encoders modelType env).result.success = true →
      ((predict models encoders modelType env).result.prediction
          = "Healthy Plant" →
        (predict models encoders modelType env).result.confidence
          = some (95 / 100)) ∧
      ((predict models encoders modelType env).result.prediction
          ≠ "Healthy Plant" →
        (predict models encoders modelType env).result.confidence
          = some (75 / 100))) := by
  have hdb := diseasedBranch_conf models encoders modelType env hr
  rcases himg : env.imgLoaded with _ | _
  · have hq : predict models encoders modelType env
        = ⟨failResult "Could not load image" (env.time 1 - env.time 0),
           false, none⟩ := by
      simp [predict, himg]
    rw [hq]
    exact ⟨fun hs => absurd hs (by simp [failResult]),
      fun _ hs => absurd hs (by simp [failResult])⟩
  · rcases hhf : env.healthFeats with e | hf
    · have hq : predict models encoders modelType env
          = ⟨failResult ("Prediction error: " ++ e) (env.time 2 - env.time 0),
             false, none⟩ := by
        simp [predict, himg, hhf]
      rw [hq]
      exact ⟨fun hs => absurd hs (by simp [failResult]),
        fun _ hs => absurd hs (by simp [failResult])⟩
    · rcases hlk : models.lookup (modelType ++ "_health") with _ | slot
      · have hq : predict models encoders modelType env
            = ⟨failResult (unavailableMsg modelType (dictKeys models))
                (env.time 3 - env.time 0), false, none⟩ := by
          simp [predict, himg, hhf, hlk]
        rw [hq]
        exact ⟨fun hs => absurd hs (by simp [failResult]),
          fun _ hs => absurd hs (by simp [failResult])⟩
      · rcases slot with _ | hm
        · have hq : predict models encoders modelType env
              = ⟨failResult ("Prediction error: " ++ noneAttrMsg "predict")
                  (env.time 4 - env.time 0), false, none⟩ := by
            simp [predict, himg, hhf, hlk]
          rw [hq]
          exact ⟨fun hs => absurd hs (by simp [failResult]),
            fun _ hs => absurd hs (by simp [failResult])⟩
        · rcases hpd : hm.predictFn hf with e | hp2
          · have hq : predict models encoders modelType env
                = ⟨failResult ("Prediction error: " ++ e)
                    (env.time 4 - env.time 0), false, none⟩ := by
              simp [predict, himg, hhf, hlk, hpd]
            rw [hq]
            exact ⟨fun hs => absurd hs (by simp [failResult]),
              fun _ hs => absurd hs (by simp [failResult])⟩
          · by_cases hz : hp2 = 0
            · subst hz
              have hq : predict models encoders modelType env
                  = ⟨{ success := true,
                       prediction := "Healthy Plant",
                       confidence := some (healthConf hm hf 0),
                       disease_info := some (get_disease_info "healthy_basil"),
                       message := none,
                       processing_time := env.time 5 - env.time 0 },
                     false, none⟩ := by
                simp [predict, himg, hhf, hlk, hpd]
              rw [hq]
              constructor
              · intro _
                exact ⟨healthConf hm hf 0, rfl,
                  healthConf_range hm hf 0 (hr _ hm hlk)⟩
              · intro hnp _
                constructor
                · intro _
                  show some (healthConf hm hf 0) = some (95 / 100)
                  rw [healthConf_noproba hm hf 0 (hnp _ hm hlk)]
                · intro hne
                  exact absurd rfl hne
            · rw [predict_diseased models encoders modelType env hm hf hp2
                himg hhf hlk hpd hz]
              refine ⟨hdb.1, fun hnp hs =>
                ⟨fun hp => absurd hp (hdb.2.2 hs), fun _ => hdb.2.1 hnp hs⟩⟩

/-- Witness for C7 at a concrete registry and request. -/
theorem C7_confidence_bounds_witness :
    ((predict modelsHealthyOnly [] "random_forest" envHealthy).result.success
        = true →
      ∃ c, (predict modelsHealthyOnly [] "random_forest"
          envHealthy).result.confidence = some c ∧ 0 ≤ c ∧ c ≤ 1) ∧
    (registryNoProba modelsHealthyOnly →
      (predict modelsHealthyOnly [] "random_forest" envHealthy).result.success
        = true →
      ((predict modelsHealthyOnly [] "random_forest"
          envHealthy).result.prediction = "Healthy Plant" →
        (predict modelsHealthyOnly [] "random_forest"
          envHealthy).result.confidence = some (95 / 100)) ∧
      ((predict modelsHealthyOnly [] "random_forest"
          envHealthy).result.prediction ≠ "Healthy Plant" →
        (predict modelsHealthyOnly [] "random_forest"
          envHealthy).result.confidence = some (75 / 100))) :=
  C7_confidence_bounds modelsHealthyOnly [] "random_forest" envHealthy (by
    intro key m hkey
    simp only [modelsHealthyOnly, List.lookup] at hkey
    split at hkey
    · obtain rfl : alwaysHealthyModel = m := by
        injection (Option.some.inj hkey)
      intro pf v probs hpf
      exact absurd hpf (by simp [alwaysHealthyModel])
    · cases hkey)

/-- C10: the load-time fallbacks can bind registry keys to an absent
artifact: with only the KNN health model file on disk, the key
`knn_disease` is present but maps to `none`; with the random-forest
encoder file missing, the `svm` and `knn` encoder keys are present but map
to `none`.  A prediction that uses such a key passes the key-presence
availability check — the specific `No disease classification model
available` / `Label encoder not available` messages are not produced — and
instead fails inside a catch-all exception handler: the inner KNN handler
(`KNN disease prediction error: ...`) for the `None` disease classifier,
the generic handler (`Prediction error: ...`) for a `None` encoder. -/
theorem C10_none_fallback_bindings :
    (load_models filesKnnOnly).1.lookup "knn_disease" = some none ∧
    (load_models filesSvmNoEnc).2.lookup "svm" = some none ∧
    (load_models filesKnnNoEnc).2.lookup "knn" = some none ∧
    ((predict (load_models filesKnnOnly).1 (load_models filesKnnOnly).2 "knn"
        envHealthy).result.success = false ∧
      (predict (load_models filesKnnOnly).1 (load_models filesKnnOnly).2 "knn"
        envHealthy).result.message
        = some ("KNN disease prediction error: " ++ noneAttrMsg "predict") ∧
      (predict (load_models filesKnnOnly).1 (load_models filesKnnOnly).2 "knn"
        envHealthy).result.message
        ≠ some "No disease classification model available") ∧
    ((predict (load_models filesSvmNoEnc).1 (load_models filesSvmNoEnc).2 "svm"
        envHealthy).result.success = false ∧
      (predict (load_models filesSvmNoEnc).1 (load_models filesSvmNoEnc).2 "svm"
        envHealthy).result.message
        = some ("Prediction error: " ++ noneAttrMsg "inverse_transform") ∧
      (predict (load_models filesSvmNoEnc).1 (load_models filesSvmNoEnc).2 "svm"
        envHealthy).result.message ≠ some "Label encoder not available") ∧
    ((predict (load_models filesKnnNoEnc).1 (load_models filesKnnNoEnc).2 "knn"
        envDiseased).result.success = false ∧
      (predict (load_models filesKnnNoEnc).1 (load_models filesKnnNoEnc).2 "knn"
        envDiseased).result.message
        = some ("Prediction error: " ++ noneAttrMsg "inverse_transform") ∧
      (predict (load_models filesKnnNoEnc).1 (load_models filesKnnNoEnc).2 "knn"
        envDiseased).result.message ≠ some "Label encoder not available") := by
  refine ⟨rfl, rfl, rfl, ⟨rfl, rfl, by decide⟩, ⟨rfl, rfl, by decide⟩,
    ⟨rfl, rfl, by decide⟩⟩

/-- Instantiation of C5 at a concrete registry and request. -/
theorem C5_defensive_boundary_witness :
    ((predict modelsRfNoMeta [] "random_forest" envDiseased).result.success
        = false →
      ∃ m, (predict modelsRfNoMeta [] "random_forest"
          envDiseased).result.message = some m ∧ 0 < m.length) ∧
    ∃ k, 1 ≤ k ∧
      (predict modelsRfNoMeta [] "random_forest"
        envDiseased).result.processing_time
        = envDiseased.time k - envDiseased.time 0 :=
  C5_defensive_boundary modelsRfNoMeta [] "random_forest" envDiseased

end Basil
